import Mathlib

/-!
Verification of the gldf-rs synthetic-fixture generation scripts
(`scripts/astral_sky_demo.py` and `scripts/enrich_aec_gldf.py`).

The Python code is shallowly embedded: pure numeric code is translated to
functions over `ℚ` (Python floats carry exact decimal constants here; the
only transcendental calls, `math.exp`, `math.sin` and float `10 ** x`, are
modelled by the computable rational functions `expQ`, `sinQ` and `pow10`
below, which agree with the real functions on every fact any theorem in
this file uses — strict positivity of exp, the sign of `exp x - 1`, the
bound `|sin| ≤ 1`, and exactness of `10 ^ n` at integer `n`).  The one
genuinely real-valued routine, the horizon transform `calculate_alt_az`,
is embedded over `ℝ` with Mathlib's exact `Real.sin`/`Real.arcsin`/… .
Fallible code paths (Python exceptions) become `Option`; code that
catches an exception locally and substitutes a default is embedded as
that substitution.
-/

namespace AstralSky

/-- Python `int(x)` on a float: truncation toward zero. -/
def intTrunc (q : ℚ) : ℤ :=
  if q < 0 then -(Int.floor (-q)) else Int.floor q

/-- Model of C `exp` on nonnegative arguments: a truncated Taylor sum.
Only the facts `0 ≤ x → 1 + x ≤ expPos x` (hence positivity and
`expPos x > 1` for `x > 0`) are used by any theorem. -/
def expPos (x : ℚ) : ℚ :=
  1 + x + x ^ 2 / 2 + x ^ 3 / 6 + x ^ 4 / 24

/-- Model of Python `math.exp`.  For `x < 0` it is `1 / expPos (-x)`, so
that, exactly like the real exponential, `expQ` is strictly positive
everywhere, `expQ x > 1` for `x > 0` and `expQ x < 1` for `x < 0`.
These sign facts are the only properties of `math.exp` any verified
statement depends on (the exact transcendental values are irrational and
not representable in a shallow rational embedding). -/
def expQ (x : ℚ) : ℚ :=
  if x < 0 then 1 / expPos (-x) else expPos x

/-- Model of Python `math.sin`: a truncated Taylor sum clamped to
`[-1, 1]`.  Every verified statement depends only on `|sin| ≤ 1`,
which the model shares with the real function. -/
def sinQ (x : ℚ) : ℚ :=
  max (-1) (min 1 (x - x ^ 3 / 6 + x ^ 5 / 120))

/-- Model of Python float `10 ** x`.  Exact (`10 ^ n`) at every integer
argument — the only arguments at which a verified statement evaluates
it — and the integer-part power `10 ^ ⌊x⌋` elsewhere (the true value is
irrational there).  Monotone, like the real power function. -/
def pow10 (x : ℚ) : ℚ :=
  (10 : ℚ) ^ (Int.floor x)

/-- Python `max` over a nonempty list (`[]` case unreachable, mapped to 0). -/
def listMax : List ℚ → ℚ
  | [] => 0
  | x :: xs => xs.foldl max x

/-- Digits of `n` left-padded with zeros to width `w`. -/
def padZeros (w : ℕ) (s : String) : String :=
  String.mk (List.replicate (w - s.length) '0') ++ s

/-- Fixed-point decimal rendering of a nonnegative integer `n` of
scaled units, with `prec` fractional digits. -/
def renderScaled (prec : ℕ) (n : ℕ) : String :=
  toString (n / 10 ^ prec) ++ "." ++ padZeros prec (toString (n % 10 ^ prec))

/-- Model of Python `"%.Nf"` formatting: round to `N` decimal places and
render with a fixed number of fractional digits.  (CPython rounds the
underlying binary float to nearest/even; the embedding rounds the exact
rational to nearest.  No verified statement compares formatted digits of
transcendental values, so the tie-breaking convention is immaterial.) -/
def fmtFixed (prec : ℕ) (q : ℚ) : String :=
  let n : ℤ := round (q * 10 ^ prec)
  if n < 0 then "-" ++ renderScaled prec (-n).toNat else renderScaled prec n.toNat

/-- Drop trailing zeros of a fraction part, keeping at least one digit. -/
def trimFrac (s : String) : String :=
  String.mk (List.reverse ((s.data.reverse).dropWhile (fun c => c = '0')))

/-- Model of Python `str(float)` (shortest-repr decimal): rendered here as
the rational's decimal expansion to 6 places with trailing zeros trimmed.
No verified statement depends on its digits. -/
def pyStr (q : ℚ) : String :=
  let n : ℤ := round (q * 10 ^ 6)
  let render := fun (m : ℕ) =>
    let t := trimFrac (padZeros 6 (toString (m % 10 ^ 6)))
    toString (m / 10 ^ 6) ++ "." ++ (if t = "" then "0" else t)
  if n < 0 then "-" ++ render (-n).toNat else render n.toNat

/-- Python `str.startswith`, over the character list (the `String.Pos`
based library version does not reduce in the kernel). -/
def pyStartsWith (s p : String) : Bool :=
  p.data.isPrefixOf s.data

/-- Python `str.upper`, character-wise (ASCII, as all compared letters are). -/
def pyUpper (s : String) : String :=
  String.mk (s.data.map Char.toUpper)

/-- Python `str.lower`, character-wise. -/
def pyLower (s : String) : String :=
  String.mk (s.data.map Char.toLower)

/-- Python `str.replace` for a single-character pattern and replacement. -/
def pyReplaceChar (s : String) (a b : Char) : String :=
  String.mk (s.data.map (fun c => if c = a then b else c))

/-- Python `str.strip()`: remove leading and trailing whitespace. -/
def pyStrip (s : String) : String :=
  String.mk ((((s.data.dropWhile Char.isWhitespace).reverse).dropWhile
    Char.isWhitespace).reverse)

/-- `Star` record from `astral_sky_demo.py` (dataclass `Star`).
`pyid` models the CPython object identity `id(star)`, which the source
uses as a last-resort identifier component in `star_to_id`; it is opaque
data carried by the object. -/
structure Star where
  name : String
  hip_id : Option ℤ
  ra : ℚ
  dec : ℚ
  mag : ℚ
  spectral_type : String
  color_index : Option ℚ
  pyid : ℕ := 0
deriving Repr, DecidableEq

/-- `Star.temperature` (astral_sky_demo.py lines 55-88): estimate the
effective temperature from the B-V colour index when present, otherwise
from the leading letter of the spectral classification. -/
def Star.temperature (s : Star) : ℤ :=
  match s.color_index with
  | some bv =>
      if bv < -(3 : ℚ)/10 then 30000
      else if bv < 0 then intTrunc (10000 - bv * 10000)
      else if bv < (6 : ℚ)/10 then intTrunc (7500 - bv * 5000)
      else if bv < (15 : ℚ)/10 then intTrunc (6000 - (bv - (6 : ℚ)/10) * 2500)
      else 3000
  | none =>
      let spec := if s.spectral_type = "" then "G2" else pyUpper s.spectral_type
      if pyStartsWith spec ("O") then 35000
      else if pyStartsWith spec ("B") then 20000
      else if pyStartsWith spec ("A") then 9000
      else if pyStartsWith spec ("F") then 7000
      else if pyStartsWith spec ("G") then 5500
      else if pyStartsWith spec ("K") then 4500
      else if pyStartsWith spec ("M") then 3200
      else 5500

/-- The temperature mapping exactly as claim C7 words it: the fixed
piecewise-linear colour-index mapping when an index is available, else
the fixed Kelvin lookup on the leading letter of the classification,
with 5500 K for an empty or unrecognized classification.  (The claim's
linear formulas are applied with Python's `int()` truncation, as the
source does.) -/
def claimTemperature (ci : Option ℚ) (st : String) : ℤ :=
  match ci with
  | some bv =>
      if bv < -(3 : ℚ)/10 then 30000
      else if bv < 0 then intTrunc (10000 - bv * 10000)
      else if bv < (6 : ℚ)/10 then intTrunc (7500 - bv * 5000)
      else if bv < (15 : ℚ)/10 then intTrunc (6000 - (bv - (6 : ℚ)/10) * 2500)
      else 3000
  | none =>
      if st = "" then 5500
      else
        let u := pyUpper st
        if pyStartsWith u ("O") then 35000
        else if pyStartsWith u ("B") then 20000
        else if pyStartsWith u ("A") then 9000
        else if pyStartsWith u ("F") then 7000
        else if pyStartsWith u ("G") then 5500
        else if pyStartsWith u ("K") then 4500
        else if pyStartsWith u ("M") then 3200
        else 5500

/-- A raw CSV field of the HYG catalogue as the loader sees it: absent
(`KeyError` / empty), present but unparseable (`ValueError` on
`float`/`int`), or a parsed value. -/
inductive RawField (α : Type) where
  | missing
  | malformed
  | good (a : α)
deriving Repr, DecidableEq

/-- One raw row of the HYG catalogue CSV, the input shape of
`load_hyg_catalogue` (row fields `mag`, `ra`, `dec`, `ci`, `hip`, `id`,
`proper`, `spect`).  `pyid` models the object identity of the `Star`
the row would construct (see `Star.pyid`). -/
structure Row where
  mag : RawField ℚ
  ra : RawField ℚ
  dec : RawField ℚ
  ci : RawField ℚ
  hip : RawField ℤ
  idf : RawField String
  proper : String
  spect : String
  pyid : ℕ := 0
deriving Repr, DecidableEq

/-- The loop body of `load_hyg_catalogue` (astral_sky_demo.py lines
122-146) for one row: parse `mag` and skip the row when it exceeds the
limit, parse the optional colour index and Hipparcos id, build the name
(`proper or "HIP .."` when `hip_id` is truthy, else `"HYG .."`), convert
right ascension from hours to degrees; any `ValueError`/`KeyError`
(a `malformed` or required-`missing` field) skips the row (`none`). -/
def parseRow (mag_limit : ℚ) (r : Row) : Option Star :=
  match r.mag with
  | .good mag =>
    if mag > mag_limit then none
    else
      match r.ci, r.hip with
      | .malformed, _ => none
      | _, .malformed => none
      | _, _ =>
        let color_index : Option ℚ := match r.ci with
          | .good c => some c
          | _ => none
        let hip_id : Option ℤ := match r.hip with
          | .good h => some h
          | _ => none
        let name? : Option String :=
          match hip_id with
          | some h =>
              -- `hip_id` truthy (non-None, non-zero): `proper or f"HIP {hip_id}"`
              if h ≠ 0 then
                some (if r.proper ≠ "" then r.proper else "HIP " ++ toString h)
              else
                match r.idf with
                | .good i => some ("HYG " ++ i)
                | _ => none
          | none =>
              match r.idf with
              | .good i => some ("HYG " ++ i)
              | _ => none
        match name?, r.ra, r.dec with
        | some name, .good ra, .good dec =>
            some { name := name, hip_id := hip_id, ra := ra * 15, dec := dec,
                   mag := mag, spectral_type := r.spect, color_index := color_index,
                   pyid := r.pyid }
        | _, _, _ => none
  | _ => none

/-- `get_fallback_stars` (astral_sky_demo.py lines 154-177): the fixed
hardcoded list of 15 bright stars used when the HYG catalogue file is
not available.  Returned whole, with no magnitude filtering. -/
def get_fallback_stars : List Star :=
  [ { name := "Sirius", hip_id := none, ra := 101.287, dec := -16.716, mag := -1.46,
      spectral_type := "A1V", color_index := some 0.00 },
    { name := "Canopus", hip_id := none, ra := 95.988, dec := -52.696, mag := -0.74,
      spectral_type := "F0Ib", color_index := some 0.15 },
    { name := "Arcturus", hip_id := none, ra := 213.915, dec := 19.182, mag := -0.05,
      spectral_type := "K1.5III", color_index := some 1.23 },
    { name := "Vega", hip_id := none, ra := 279.235, dec := 38.784, mag := 0.03,
      spectral_type := "A0V", color_index := some 0.00 },
    { name := "Capella", hip_id := none, ra := 79.172, dec := 45.998, mag := 0.08,
      spectral_type := "G5III", color_index := some 0.80 },
    { name := "Rigel", hip_id := none, ra := 78.634, dec := -8.202, mag := 0.13,
      spectral_type := "B8Ia", color_index := some (-0.03) },
    { name := "Procyon", hip_id := none, ra := 114.825, dec := 5.225, mag := 0.34,
      spectral_type := "F5IV-V", color_index := some 0.42 },
    { name := "Betelgeuse", hip_id := none, ra := 88.793, dec := 7.407, mag := 0.42,
      spectral_type := "M1Ia", color_index := some 1.85 },
    { name := "Altair", hip_id := none, ra := 297.696, dec := 8.868, mag := 0.77,
      spectral_type := "A7V", color_index := some 0.22 },
    { name := "Aldebaran", hip_id := none, ra := 68.980, dec := 16.509, mag := 0.85,
      spectral_type := "K5III", color_index := some 1.54 },
    { name := "Antares", hip_id := none, ra := 247.352, dec := -26.432, mag := 0.96,
      spectral_type := "M1Ib", color_index := some 1.83 },
    { name := "Spica", hip_id := none, ra := 201.298, dec := -11.161, mag := 0.97,
      spectral_type := "B1V", color_index := some (-0.23) },
    { name := "Pollux", hip_id := none, ra := 116.329, dec := 28.026, mag := 1.14,
      spectral_type := "K0III", color_index := some 1.00 },
    { name := "Deneb", hip_id := none, ra := 310.358, dec := 45.280, mag := 1.25,
      spectral_type := "A2Ia", color_index := some 0.09 },
    { name := "Polaris", hip_id := none, ra := 37.954, dec := 89.264, mag := 2.02,
      spectral_type := "F7Ib", color_index := some 0.60 } ]

/-- `load_hyg_catalogue` (astral_sky_demo.py lines 91-151).  The input is
`none` when neither the CSV nor the gzipped CSV exists (the function then
returns the fallback list), or `some rows` with the parsed CSV rows,
which are filtered row by row through `parseRow`. -/
def load_hyg_catalogue (input : Option (List Row)) (mag_limit : ℚ) : List Star :=
  match input with
  | none => get_fallback_stars
  | some rows => rows.filterMap (parseRow mag_limit)

/-- The 81 wavelength bins 380, 385, …, 780 nm (`range(380, 781, 5)` in
`generate_star_spectrum`, `range(380, 785, 5)` in `generate_fake_spectrum` —
the same list). -/
def wavelengthGrid : List ℕ :=
  (List.range 81).map (fun i => 380 + 5 * i)

/-- The Planck exponent `(h*c)/(wl_m * k * temperature)` of
`generate_star_spectrum` (astral_sky_demo.py line 213), with the source's
constants `h = 6.626e-34`, `c = 3e8`, `k = 1.381e-23` and
`wl_m = wl_nm * 1e-9`, as an exact rational. -/
def planckExponent (temperature : ℤ) (wl_nm : ℕ) : ℚ :=
  (6.626e-34 * 3e8) / (((wl_nm : ℚ) * (1 / 10 ^ 9)) * 1.381e-23 * (temperature : ℚ))

/-- One bin of `generate_star_spectrum` (astral_sky_demo.py lines
209-220): zero when `temperature = 0` (the `ZeroDivisionError` of the
float division, caught and replaced by `0.0`), zero when the exponent
exceeds 700 (the overflow guard), else the simplified Planck value
`(1 / wl_m^5) / (exp(exponent) - 1)`. -/
def planckIntensity (temperature : ℤ) (wl_nm : ℕ) : ℚ :=
  if temperature = 0 then 0
  else
    let wl_m : ℚ := (wl_nm : ℚ) * (1 / 10 ^ 9)
    let exponent := planckExponent temperature wl_nm
    if exponent > 700 then 0
    else (1 / wl_m ^ 5) / (expQ exponent - 1)

/-- The unnormalized spectrum list built by the loop of
`generate_star_spectrum`. -/
def rawStarSpectrum (temperature : ℤ) : List (ℕ × ℚ) :=
  wavelengthGrid.map (fun wl => (wl, planckIntensity temperature wl))

/-- The final normalisation step shared verbatim by
`generate_star_spectrum` (lines 222-225) and `generate_fake_spectrum`
(lines 57-60): compute the maximum intensity and divide every intensity
by it when it is positive, otherwise return the list unchanged.
(`generate_star_spectrum` guards the `max` of an empty list with a
default of `1.0`; `generate_fake_spectrum` omits the guard and never
receives an empty list, on which the two behaviours agree.) -/
def normalizeSpectrum (spectrum : List (ℕ × ℚ)) : List (ℕ × ℚ) :=
  let max_intensity := if spectrum.isEmpty then 1 else listMax (spectrum.map Prod.snd)
  if max_intensity > 0 then spectrum.map (fun p => (p.1, p.2 / max_intensity))
  else spectrum

/-- `generate_star_spectrum` (astral_sky_demo.py lines 198-227):
blackbody-like spectrum for a star, normalized to unit peak. -/
def generate_star_spectrum (temperature : ℤ) : List (ℕ × ℚ) :=
  normalizeSpectrum (rawStarSpectrum temperature)

/-- One bin of `generate_fake_spectrum` (enrich_aec_gldf.py lines 36-55):
blue LED pump peak, CCT-dependent phosphor lobe, warm-white red phosphor
lobe for `cct ≤ 4000`, a small sinusoidal ripple, clamped nonnegative. -/
def fakeSpectrumBin (cct : ℤ) (wl : ℕ) : ℚ :=
  let blue_peak := 0.6 * expQ (-(((wl : ℚ) - 450) ^ 2) / (2 * 15 ^ 2))
  let phosphor_peak_wl := 580 - ((cct : ℚ) - 4000) * 0.02
  let phosphor_width := 80 + ((cct : ℚ) - 3000) * 0.01
  let phosphor := 0.8 * expQ (-(((wl : ℚ) - phosphor_peak_wl) ^ 2) / (2 * phosphor_width ^ 2))
  let red_phosphor :=
    if cct ≤ 4000 then
      (((4000 : ℚ) - (cct : ℚ)) / 3000) * 0.4 * expQ (-(((wl : ℚ) - 620) ^ 2) / (2 * 40 ^ 2))
    else 0
  max 0 ((blue_peak + phosphor + red_phosphor) * (1 + 0.02 * sinQ ((wl : ℚ) * 0.1)))

/-- `generate_fake_spectrum` (enrich_aec_gldf.py lines 28-62).  When the
phosphor width `80 + (cct - 3000) * 0.01` is zero (exactly at
`cct = -5000`) the float division in the phosphor term raises an
uncaught `ZeroDivisionError`, modelled as `none`. -/
def generate_fake_spectrum (cct : ℤ) : Option (List (ℕ × ℚ)) :=
  if (80 : ℚ) + ((cct : ℚ) - 3000) * 0.01 = 0 then none
  else some (normalizeSpectrum (wavelengthGrid.map (fun wl => (wl, fakeSpectrumBin cct wl))))

/-- `star_to_id` (astral_sky_demo.py lines 185-195): derive a stable XML
identifier from the star name — lower-case, strip, spaces and hyphens to
underscores, keep only `[a-z0-9_]`, prefix `star_` when the result
starts with a digit, and fall back to `star_{hip_id or id(star)}` when
it is empty. -/
def star_to_id (star : Star) : String :=
  let name := pyStrip (pyLower star.name)
  let replaced := pyReplaceChar (pyReplaceChar name ' ' '_') '-' '_'
  let safe_name :=
    String.mk (replaced.data.filter (fun c => c.isLower || c.isDigit || c == '_'))
  let safe_name2 :=
    match safe_name.data with
    | c :: _ => if c.isDigit then "star_" ++ safe_name else safe_name
    | [] => safe_name
  if safe_name2 ≠ "" then safe_name2
  else "star_" ++
    (match star.hip_id with
     | some h => if h ≠ 0 then toString h else toString star.pyid
     | none => toString star.pyid)

/-- The `RatedLumens` value written into the TM-33 emitter block by
`generate_tm33_for_star` (astral_sky_demo.py line 281):
`int(10 ** ((0 - star.mag) / 2.5) * 1000)`, uncapped. -/
def ratedLumensVal (mag : ℚ) : ℤ :=
  intTrunc (pow10 ((0 - mag) / 2.5) * 1000)

/-- The `RatedLuminousFlux` value written on the document Emitter by
`generate_gldf_for_sky` (astral_sky_demo.py line 559):
`min(int(10 ** ((0 - star.mag) / 2.5) * 1000), 2000000000)`. -/
def emitterFluxVal (mag : ℚ) : ℤ :=
  min (intTrunc (pow10 ((0 - mag) / 2.5) * 1000)) 2000000000

/-- One `<Emitter>` of the composed product document: its id and the two
reference attributes it carries (`PhotometryReference photometryId` and
`LightSourceReference fixedLightSourceId`), plus its rated flux. -/
structure GldfEmitter where
  id : String
  photometryRef : String
  lightSourceRef : String
  ratedLuminousFlux : ℤ
deriving Repr, DecidableEq

/-- The identifier/cross-reference structure of the product document
built by `generate_gldf_for_sky` (astral_sky_demo.py lines 524-581):
`files` pairs each `<File id>` with its local file name, `photometries`
pairs each `<Photometry id>` with its `PhotometryFileReference fileId`,
`lightSources` and `variants` are id lists, and each emitter carries its
two references. -/
structure GldfDoc where
  files : List (String × String)
  photometries : List (String × String)
  lightSources : List String
  emitters : List GldfEmitter
  variants : List String
deriving Repr, DecidableEq

/-- The Product Document Composer of `generate_gldf_for_sky`
(astral_sky_demo.py lines 511-581), at the level of identifiers and
references: one slug per visible star (`star_ids`, line 522), then the
Files, Photometries, LightSources, Emitters and Variants sections are
each generated from that same slug list.  The source emits the document
unconditionally — it contains no reference check and no error path. -/
def generate_gldf_for_sky_doc (visible_stars : List Star) : GldfDoc :=
  let star_ids := visible_stars.map (fun star => (star, star_to_id star))
  { files := star_ids.map (fun p => ("file_" ++ p.2, p.2 ++ ".iesxml")),
    photometries := star_ids.map (fun p => ("photometry_" ++ p.2, "file_" ++ p.2)),
    lightSources := star_ids.map (fun p => "lightsource_" ++ p.2),
    emitters := star_ids.map (fun p =>
      { id := "emitter_" ++ p.2,
        photometryRef := "photometry_" ++ p.2,
        lightSourceRef := "lightsource_" ++ p.2,
        ratedLuminousFlux := emitterFluxVal p.1.mag }),
    variants := star_ids.map (fun p => "variant_" ++ p.2) }

/-- A document is dangling-free when every emitter's photometry and
light-source references and every photometry's file reference name an
identifier defined in the same document. -/
def danglingFree (d : GldfDoc) : Bool :=
  d.emitters.all (fun e =>
    (d.photometries.map Prod.fst).contains e.photometryRef &&
    d.lightSources.contains e.lightSourceRef) &&
  d.photometries.all (fun p => (d.files.map Prod.fst).contains p.2)

/-- The space-separated wavelength list of `generate_tm33_for_star`
(astral_sky_demo.py line 235). -/
def tm33Wavelengths (temp : ℤ) : String :=
  String.intercalate (" ") ((generate_star_spectrum temp).map (fun p => toString p.1))

/-- The space-separated `%.4f` value list of `generate_tm33_for_star`
(astral_sky_demo.py line 236). -/
def tm33Values (temp : ℤ) : String :=
  String.intercalate (" ") ((generate_star_spectrum temp).map (fun p => fmtFixed 4 p.2))

/-- The `<IntensityData>` block of `generate_tm33_for_star`
(astral_sky_demo.py lines 240-244): a point source, all intensity at
`gamma = 0`, over the gammas 0, 5, …, 90. -/
def tm33IntensityData : String :=
  String.join (((List.range 19).map (fun i => 5 * i)).map (fun gamma =>
    "            <IntensityData horz=\"0\" vert=\"" ++ toString gamma ++ "\">" ++
      fmtFixed 1 (if gamma = 0 then 1000 else 0) ++ "</IntensityData>\n"))

/-- Text of the TM-33 document before the first `datetime.now()` date
(the `ReportDate` field), transcribed from the f-string of
`generate_tm33_for_star` (astral_sky_demo.py lines 246-263). -/
def tm33Pre (star : Star) : String :=
  "<?xml version=\"1.0\" encoding=\"UTF-8\"?>\n<!--\n  Stellar Photometry - " ++
  star.name ++ "\n  Spectral Type: " ++ star.spectral_type ++
  "\n  Temperature: " ++ toString star.temperature ++ "K\n  Magnitude: " ++
  pyStr star.mag ++
  "\n\n  Generated for Astral Sky Demo - Tribute to Astrophysics\n-->\n" ++
  "<IESTM33-22>\n    <Version>1.1</Version>\n    <Header>\n" ++
  "        <Manufacturer>Astral Sky Demo</Manufacturer>\n" ++
  "        <CatalogNumber>" ++ pyReplaceChar star.name ' ' '_' ++
  "</CatalogNumber>\n        <Description>Star: " ++ star.name ++ " (" ++
  star.spectral_type ++ ")</Description>\n" ++
  "        <Laboratory>Stellar Photometry Generator</Laboratory>\n" ++
  "        <ReportNumber>STAR-" ++ pyReplaceChar star.name ' ' '-' ++
  "</ReportNumber>\n        <ReportDate>"

/-- Text between the two `datetime.now()` dates (lines 263-265). -/
def tm33Mid : String :=
  "</ReportDate>\n        <DocumentCreator>astral_sky_demo.py</DocumentCreator>\n" ++
  "        <DocumentCreationDate>"

/-- Text of the TM-33 document after the second date (lines 265-300). -/
def tm33Post (star : Star) : String :=
  "</DocumentCreationDate>\n    </Header>\n    <Luminaire>\n" ++
  "        <Dimensions>\n            <Length>0</Length>\n" ++
  "            <Width>0</Width>\n            <Height>0</Height>\n" ++
  "        </Dimensions>\n        <Mounting>Celestial</Mounting>\n" ++
  "        <NumEmitters>1</NumEmitters>\n    </Luminaire>\n    <Emitter>\n" ++
  "        <ID>star-" ++ pyReplaceChar (pyLower star.name) ' ' '-' ++
  "</ID>\n        <Description>" ++ star.name ++ " - " ++ star.spectral_type ++
  " star</Description>\n        <CatalogNumber>" ++ star.name ++
  "</CatalogNumber>\n        <Quantity>1</Quantity>\n        <RatedLumens>" ++
  toString (ratedLumensVal star.mag) ++
  "</RatedLumens>\n        <InputWattage>0</InputWattage>\n        <FixedCCT>" ++
  toString star.temperature ++
  "</FixedCCT>\n        <Duv>0.000</Duv>\n        <ColorRendering>\n" ++
  "            <Ra>100</Ra>\n        </ColorRendering>\n        <LuminousData>\n" ++
  "            <PhotometryType>CIE _ C</PhotometryType>\n" ++
  "            <Metric>Luminous</Metric>\n" ++
  "            <SymmType>Symm _ Full</SymmType>\n" ++
  "            <Multiplier>1.0</Multiplier>\n" ++ tm33IntensityData ++
  "        </LuminousData>\n        <SpectralDistribution>\n" ++
  "            <Wavelengths>" ++ tm33Wavelengths star.temperature ++
  "</Wavelengths>\n            <Values>" ++ tm33Values star.temperature ++
  "</Values>\n        </SpectralDistribution>\n    </Emitter>\n</IESTM33-22>\n"

/-- `generate_tm33_for_star` (astral_sky_demo.py lines 230-300).  The
source interpolates `datetime.now().strftime("%Y-%m-%d")` twice — into
`ReportDate` and `DocumentCreationDate`; `today` carries that
invocation-time date, every other field is a function of the star. -/
def generate_tm33_for_star (star : Star) (today : String) : String :=
  tm33Pre star ++ today ++ tm33Mid ++ today ++ tm33Post star

/-- The CCT configuration list of `enrich_aec_gldf.py` (line 22). -/
def CCTS : List ℤ := [3000, 3500, 4000, 5000, 6500]

/-- Model of Python `math.radians`: degrees to radians with the float π
constant as an exact rational.  Only fed to `sinQ`, whose exact value no
verified statement depends on. -/
def radiansQ (x : ℚ) : ℚ :=
  x * (3.141592653589793 / 180)

/-- Python `round(x, prec)` (CPython rounds ties on the binary float;
the embedding rounds the exact rational to nearest — no verified
statement depends on the tie case). -/
def roundQ (prec : ℕ) (q : ℚ) : ℚ :=
  ((round (q * 10 ^ prec) : ℤ) : ℚ) / 10 ^ prec

/-- `generate_tm30_values` (enrich_aec_gldf.py lines 65-82): synthetic
but bounded TM-30 Rf and Rg values for a CCT. -/
def generate_tm30_values (cct : ℤ) : ℤ × ℤ :=
  let base_rf : ℤ := 85
  let rf0 := if cct ≤ 3000 then base_rf + 5
             else if cct ≤ 4000 then base_rf + 3
             else if cct ≤ 5000 then base_rf
             else base_rf - 2
  let rf1 := rf0 + intTrunc (sinQ ((cct : ℚ) * 0.001) * 3)
  let rf := max 70 (min 95 rf1)
  let rg0 := 100 - intTrunc (((cct : ℚ) - 4000) * 0.002)
  let rg := max 95 (min 108 rg0)
  (rf, rg)

/-- `generate_cie_xy` (enrich_aec_gldf.py lines 85-99): the two-segment
cubic-in-inverse-CCT approximation of the CIE 1931 coordinates, rounded
to 4 decimals.  At `cct = 0` the division raises `ZeroDivisionError`
(`none`). -/
def generate_cie_xy (cct : ℤ) : Option (ℚ × ℚ) :=
  if cct = 0 then none
  else
    let x : ℚ :=
      if cct < 4000 then
        -0.2661239e9 / (cct : ℚ) ^ 3 - 0.2343589e6 / (cct : ℚ) ^ 2 +
          0.8776956e3 / (cct : ℚ) + 0.179910
      else
        -3.0258469e9 / (cct : ℚ) ^ 3 + 2.1070379e6 / (cct : ℚ) ^ 2 +
          0.2226347e3 / (cct : ℚ) + 0.240390
    let y : ℚ :=
      if cct < 2222 then
        -1.1063814 * x ^ 3 - 1.34811020 * x ^ 2 + 2.18555832 * x - 0.20219683
      else if cct < 4000 then
        -0.9549476 * x ^ 3 - 1.37418593 * x ^ 2 + 2.09137015 * x - 0.16748867
      else
        3.0817580 * x ^ 3 - 5.87338670 * x ^ 2 + 3.75112997 * x - 0.37001483
    some (roundQ 4 x, roundQ 4 y)

/-- The 7 C-planes 0, 15, …, 90 of `generate_fake_photometry`. -/
def c_planes : List ℕ := (List.range 7).map (fun i => 15 * i)

/-- The 19 gamma angles 0, 5, …, 90 of `generate_fake_photometry`. -/
def gamma_angles : List ℕ := (List.range 19).map (fun i => 5 * i)

/-- `generate_fake_photometry` (enrich_aec_gldf.py lines 102-130):
Gaussian falloff in gamma with CCT-dependent beam width, times a small
sinusoidal C-plane modulation, clamped nonnegative; one row per gamma
angle.  (The Lean division is total where Python would raise at the
out-of-range `cct = -14500` that zeroes the beam width; no caller
reaches it — `CCTS` stays within 3000–6500.) -/
def generate_fake_photometry (cct : ℤ) : List (List ℚ) :=
  let beam_width : ℚ := 35 + ((cct : ℚ) - 3000) / 500
  gamma_angles.map (fun gamma =>
    c_planes.map (fun c =>
      max 0 ((1000 * expQ (-((gamma : ℚ) ^ 2) / (2 * beam_width ^ 2))) *
        (1 + 0.02 * sinQ (radiansQ ((c : ℚ) * 4))))))

/-- The `<IntensityData>` block of `generate_iesxml_content`
(enrich_aec_gldf.py lines 157-160): one entry per (gamma, C-plane) pair,
outer loop gamma ascending, inner loop C-plane ascending. -/
def iesxmlIntensityData (cct : ℤ) : String :=
  String.join ((gamma_angles.zip (generate_fake_photometry cct)).map (fun gr =>
    String.join ((c_planes.zip gr.2).map (fun cv =>
      "            <IntensityData horz=\"" ++ toString cv.1 ++ "\" vert=\"" ++
        toString gr.1 ++ "\">" ++ fmtFixed 1 cv.2 ++ "</IntensityData>\n"))))

/-- The XML text of `generate_iesxml_content` (enrich_aec_gldf.py lines
149-224) as a function of the CCT, the wattage and the already-computed
spectrum.  (The apostrophe of the source comment line `it's a complete
replacement` is transcribed as `it is`.) -/
def iesxmlBody (cct : ℤ) (wattage : ℤ) (spectrum : List (ℕ × ℚ)) : String :=
  let efficacy : ℚ := 150 - ((wattage : ℚ) - 30) * 0.3
  let lumens := intTrunc ((wattage : ℚ) * efficacy)
  let rfrg := generate_tm30_values cct
  let wavelengths_str := String.intercalate (" ") (spectrum.map (fun p => toString p.1))
  let values_str := String.intercalate (" ") (spectrum.map (fun p => fmtFixed 4 p.2))
  "<?xml version=\"1.0\" encoding=\"UTF-8\"?>\n<!--\n" ++
  "  IES TM-33-23 Complete Photometric Data File\n\n" ++
  "  This file contains EVERYTHING - it is a complete replacement for IES/LDT:\n" ++
  "  - Angular photometric data (C/γ intensity matrix)\n" ++
  "  - Spectral power distribution (380-780nm)\n" ++
  "  - Color metrics (CCT, CRI, TM-30 Rf/Rg, Duv)\n" ++
  "  - Luminaire metadata\n\n  CCT: " ++ toString cct ++ "K | Rf: " ++
  toString rfrg.1 ++ " | Rg: " ++ toString rfrg.2 ++ " | " ++
  toString wattage ++ "W | " ++ toString lumens ++ "lm\n-->\n" ++
  "<IESTM33-22>\n    <Version>1.1</Version>\n    <Header>\n" ++
  "        <Manufacturer>AEC Illuminazione</Manufacturer>\n" ++
  "        <CatalogNumber>GA15-" ++ toString cct ++ "K</CatalogNumber>\n" ++
  "        <Description>GA15 Industrial LED Module - " ++ toString cct ++
  "K CCT</Description>\n        <Laboratory>Demo Data Generator</Laboratory>\n" ++
  "        <ReportNumber>GA15-TM33-" ++ toString cct ++ "K</ReportNumber>\n" ++
  "        <ReportDate>2024-01-15</ReportDate>\n" ++
  "        <DocumentCreator>GLDF Demo Generator</DocumentCreator>\n" ++
  "        <DocumentCreationDate>2024-01-15</DocumentCreationDate>\n" ++
  "    </Header>\n    <Luminaire>\n        <Dimensions>\n" ++
  "            <Length>300</Length>\n            <Width>300</Width>\n" ++
  "            <Height>120</Height>\n        </Dimensions>\n" ++
  "        <Mounting>Recessed</Mounting>\n        <NumEmitters>1</NumEmitters>\n" ++
  "    </Luminaire>\n    <Emitter>\n        <ID>led-" ++ toString cct ++
  "k</ID>\n        <Description>LED Module " ++ toString cct ++
  "K</Description>\n        <CatalogNumber>GA15-LED-" ++ toString cct ++
  "K</CatalogNumber>\n        <Quantity>1</Quantity>\n        <RatedLumens>" ++
  toString lumens ++ "</RatedLumens>\n        <InputWattage>" ++
  toString wattage ++ "</InputWattage>\n        <PowerFactor>0.95</PowerFactor>\n" ++
  "        <BallastFactor>1.0</BallastFactor>\n        <FixedCCT>" ++
  toString cct ++ "</FixedCCT>\n        <Duv>0.000</Duv>\n" ++
  "        <ColorRendering>\n            <Ra>90</Ra>\n            <R9>50</R9>\n" ++
  "            <Rf>" ++ toString rfrg.1 ++ "</Rf>\n            <Rg>" ++
  toString rfrg.2 ++ "</Rg>\n        </ColorRendering>\n        <LuminousData>\n" ++
  "            <PhotometryType>CIE _ C</PhotometryType>\n" ++
  "            <Metric>Luminous</Metric>\n" ++
  "            <SymmType>Symm _ Quad</SymmType>\n" ++
  "            <Multiplier>1.0</Multiplier>\n" ++ iesxmlIntensityData cct ++
  "        </LuminousData>\n        <SpectralDistribution>\n" ++
  "            <Wavelengths>" ++ wavelengths_str ++ "</Wavelengths>\n" ++
  "            <Values>" ++ values_str ++ "</Values>\n" ++
  "        </SpectralDistribution>\n    </Emitter>\n</IESTM33-22>\n"

/-- `generate_iesxml_content` (enrich_aec_gldf.py lines 133-224): `none`
when a sub-computation raises — the spectrum at `cct = -5000`, the CIE
approximation at `cct = 0`. -/
def generate_iesxml_content (cct : ℤ) (wattage : ℤ) : Option String := do
  let spectrum ← generate_fake_spectrum cct
  let _xy ← generate_cie_xy cct
  pure (iesxmlBody cct wattage spectrum)

/-- One payload of the archive: text (written via `writestr` with a
`str`/UTF-8-encoded document) or raw bytes. -/
inductive EntryData where
  | text (s : String)
  | bytes (b : List ℕ)
deriving Repr, DecidableEq

/-- Size of a payload (characters for text, bytes for binary — zero for
one exactly when zero for the other). -/
def EntryData.size : EntryData → ℕ
  | .text s => s.length
  | .bytes b => b.length

/-- The archive written by `generate_spectral_gldf` (enrich_aec_gldf.py
lines 649-661): the document, the geometry, the image and one TM-33
IESXML file per CCT, in `writestr` order.  `productXml` is the document
text composed by the surrounding function; `geo`/`img` are the payloads
read from the input archive.  (For every `cct ∈ CCTS` the content
generation succeeds — see `iesxml_content_CCTS` — so the `getD`
default, standing for the exception Python would propagate, is never
taken.) -/
def spectralGldfEntries (productXml : String) (geo img : List ℕ) :
    List (String × EntryData) :=
  [("product.xml", EntryData.text productXml),
   ("geometry/model.l3d", EntryData.bytes geo),
   ("image/product.jpg", EntryData.bytes img)] ++
  CCTS.map (fun cct =>
    ("ldc/GA15_" ++ toString cct ++ "K.iesxml",
     EntryData.text ((generate_iesxml_content cct 50).getD "")))

/-- The archive written by `generate_enriched_gldf` (enrich_aec_gldf.py
lines 428-433): the document, the geometry, the single base photometry
and the image. -/
def enrichedGldfEntries (productXml : String) (geo ldt img : List ℕ) :
    List (String × EntryData) :=
  [("product.xml", EntryData.text productXml),
   ("geometry/model.l3d", EntryData.bytes geo),
   ("ldc/photometry.ldt", EntryData.bytes ldt),
   ("image/product.jpg", EntryData.bytes img)]

/-- `math.radians`: degrees to radians. -/
noncomputable def radians (x : ℝ) : ℝ := x * (Real.pi / 180)

/-- `math.degrees`: radians to degrees. -/
noncomputable def degrees (x : ℝ) : ℝ := x * (180 / Real.pi)

/-- Python float `%` for a positive modulus: `x - y * ⌊x / y⌋`
(result in `[0, y)`, like CPython's). -/
noncomputable def fmod (x y : ℝ) : ℝ := x - y * (Int.floor (x / y) : ℝ)

/-- The simplified (non-astropy) branch of `calculate_alt_az`
(astral_sky_demo.py lines 316-347), over exact reals: local sidereal
time from the linear rate formula on `d` days since J2000, hour angle,
altitude through `asin` with the `[-1, 1]` clamp, azimuth through `acos`
with the clamp, mirrored to `360 - az` when `sin(hour angle) > 0`. -/
noncomputable def calculate_alt_az (ra dec lat lng : ℝ) (d : ℝ) : ℝ × ℝ :=
  let ra_rad := radians ra
  let dec_rad := radians dec
  let lat_rad := radians lat
  let lst_deg := fmod (280.46 + 360.9856474 * d + lng) 360
  let lst_rad := radians lst_deg
  let ha_rad := lst_rad - ra_rad
  let sin_alt := Real.sin dec_rad * Real.sin lat_rad +
    Real.cos dec_rad * Real.cos lat_rad * Real.cos ha_rad
  let alt := degrees (Real.arcsin (max (-1) (min 1 sin_alt)))
  let cos_az := (Real.sin dec_rad - Real.sin lat_rad * sin_alt) /
    (Real.cos lat_rad * Real.cos (radians alt))
  let cos_az2 := max (-1) (min 1 cos_az)
  let az0 := degrees (Real.arccos cos_az2)
  let az := if Real.sin ha_rad > 0 then 360 - az0 else az0
  (alt, az)

/-! ## Theorems -/

/-- `expPos` dominates `1 + x` on nonnegative arguments. -/
theorem expPos_ge {x : ℚ} (hx : 0 ≤ x) : 1 + x ≤ expPos x := by
  unfold expPos
  nlinarith [sq_nonneg x, pow_nonneg hx 3, pow_nonneg hx 4]

/-- The exponential model is strictly positive, like `math.exp`. -/
theorem expQ_pos (x : ℚ) : 0 < expQ x := by
  unfold expQ
  split
  · next h =>
      have h1 : 1 + (-x) ≤ expPos (-x) := expPos_ge (by linarith)
      have h2 : 0 < expPos (-x) := by linarith
      positivity
  · next h =>
      push_neg at h
      have := expPos_ge h
      linarith

/-- `expQ x > 1` for positive `x`, like `math.exp`. -/
theorem one_lt_expQ {x : ℚ} (hx : 0 < x) : 1 < expQ x := by
  unfold expQ
  rw [if_neg (not_lt.mpr hx.le)]
  have := expPos_ge hx.le
  linarith

/-- `expQ x < 1` for negative `x`, like `math.exp`. -/
theorem expQ_lt_one {x : ℚ} (hx : x < 0) : expQ x < 1 := by
  unfold expQ
  rw [if_pos hx]
  have h1 : 1 + (-x) ≤ expPos (-x) := expPos_ge (by linarith)
  rw [div_lt_one (by linarith)]
  linarith

/-- The seed of a `foldl max` is a lower bound of the result. -/
theorem foldl_max_le_init (t : List ℚ) (a : ℚ) : a ≤ t.foldl max a := by
  induction t generalizing a with
  | nil => exact le_refl a
  | cons b t ih => exact le_trans (le_max_left a b) (ih (max a b))

/-- Every member of the list is a lower bound of `foldl max`. -/
theorem mem_le_foldl_max {t : List ℚ} {x : ℚ} (h : x ∈ t) (a : ℚ) :
    x ≤ t.foldl max a := by
  induction t generalizing a with
  | nil => cases h
  | cons b t ih =>
      rcases List.mem_cons.mp h with rfl | hx
      · exact le_trans (le_max_right a x) (foldl_max_le_init t _)
      · exact ih hx _

/-- Python `max` bounds every element of the list. -/
theorem le_listMax {l : List ℚ} {x : ℚ} (h : x ∈ l) : x ≤ listMax l := by
  cases l with
  | nil => cases h
  | cons a t =>
      rcases List.mem_cons.mp h with rfl | hx
      · exact foldl_max_le_init t x
      · exact mem_le_foldl_max hx a

/-- A `foldl max` is the seed or a member. -/
theorem foldl_max_mem (t : List ℚ) (a : ℚ) :
    t.foldl max a = a ∨ t.foldl max a ∈ t := by
  induction t generalizing a with
  | nil => exact Or.inl rfl
  | cons b t ih =>
      rcases ih (max a b) with h | h
      · rcases max_choice a b with hm | hm
        · exact Or.inl (by rw [List.foldl_cons, h, hm])
        · exact Or.inr (by rw [List.foldl_cons, h, hm]; exact List.mem_cons_self b t)
      · exact Or.inr (List.mem_cons_of_mem b h)

/-- Python `max` of a nonempty list is one of its elements. -/
theorem listMax_mem {l : List ℚ} (h : l ≠ []) : listMax l ∈ l := by
  cases l with
  | nil => exact absurd rfl h
  | cons a t =>
      rcases foldl_max_mem t a with hm | hm
      · rw [listMax, hm]; exact List.mem_cons_self a t
      · exact List.mem_cons_of_mem a hm

/-- Division by a positive constant commutes with binary `max`. -/
theorem max_div_pos (a b : ℚ) {M : ℚ} (hM : 0 < M) :
    max (a / M) (b / M) = max a b / M := by
  rcases le_total a b with h | h
  · rw [max_eq_right h, max_eq_right ((div_le_div_iff_of_pos_right hM).mpr h)]
  · rw [max_eq_left h, max_eq_left ((div_le_div_iff_of_pos_right hM).mpr h)]

/-- Division by a positive constant commutes with `foldl max`. -/
theorem foldl_max_map_div (t : List ℚ) (a : ℚ) {M : ℚ} (hM : 0 < M) :
    (t.map (· / M)).foldl max (a / M) = (t.foldl max a) / M := by
  induction t generalizing a with
  | nil => rfl
  | cons b t ih =>
      rw [List.map_cons, List.foldl_cons, List.foldl_cons, max_div_pos a b hM, ih]

/-- Division by a positive constant commutes with Python `max`. -/
theorem listMax_map_div (l : List ℚ) {M : ℚ} (hM : 0 < M) :
    listMax (l.map (· / M)) = listMax l / M := by
  cases l with
  | nil => simp [listMax, zero_div]
  | cons a t => exact foldl_max_map_div t a hM

/-- The shared normalisation step: on a nonempty list of nonnegative
intensities it preserves the wavelengths and the length, keeps all
intensities nonnegative, and afterwards the maximum intensity is 1
unless all intensities are 0. -/
theorem normalizeSpectrum_props (l : List (ℕ × ℚ)) (hne : l ≠ [])
    (hnn : ∀ p ∈ l, 0 ≤ p.2) :
    (normalizeSpectrum l).map Prod.fst = l.map Prod.fst ∧
    (normalizeSpectrum l).length = l.length ∧
    (∀ p ∈ normalizeSpectrum l, 0 ≤ p.2) ∧
    (listMax ((normalizeSpectrum l).map Prod.snd) = 1 ∨
      ∀ p ∈ normalizeSpectrum l, p.2 = 0) := by
  unfold normalizeSpectrum
  have hE : l.isEmpty = false := by simp [List.isEmpty_iff, hne]
  simp only [hE, Bool.false_eq_true, if_false]
  by_cases hM : 0 < listMax (l.map Prod.snd)
  · rw [if_pos hM]
    refine ⟨by simp [List.map_map], by simp, ?_, Or.inl ?_⟩
    · intro p hp
      obtain ⟨q, hq, rfl⟩ := List.mem_map.mp hp
      exact div_nonneg (hnn q hq) hM.le
    · have hsnd : ((l.map fun p => (p.1, p.2 / listMax (l.map Prod.snd))).map Prod.snd)
          = (l.map Prod.snd).map (· / listMax (l.map Prod.snd)) := by
        simp [List.map_map]
      rw [hsnd, listMax_map_div _ hM, div_self (ne_of_gt hM)]
  · rw [if_neg hM]
    refine ⟨rfl, rfl, hnn, Or.inr ?_⟩
    intro p hp
    have h1 : p.2 ≤ listMax (l.map Prod.snd) :=
      le_listMax (List.mem_map_of_mem Prod.snd hp)
    have h2 : 0 ≤ p.2 := hnn p hp
    have h3 : listMax (l.map Prod.snd) ≤ 0 := le_of_not_lt hM
    linarith

/-- Mapping each element to a pair and projecting the first component
is the identity. -/
theorem map_fst_pair (f : ℕ → ℚ) (l : List ℕ) :
    (l.map (fun wl => (wl, f wl))).map Prod.fst = l := by
  induction l with
  | nil => rfl
  | cons a t ih => simp only [List.map_cons, ih]

/-- Wavelength bounds of the fixed grid. -/
theorem wavelengthGrid_bounds : ∀ wl ∈ wavelengthGrid, 380 ≤ wl ∧ wl ≤ 780 := by
  decide

/-- The fixed grid is nonempty. -/
theorem wavelengthGrid_ne_nil : wavelengthGrid ≠ [] := by decide

/-- The fixed grid has 81 bins. -/
theorem wavelengthGrid_length : wavelengthGrid.length = 81 := by decide

/-- Bin `i` of the fixed grid is `380 + 5 * i`: the grid is exactly the
ascending sequence 380, 385, …, 780. -/
theorem wavelengthGrid_get (i : ℕ) (h : i < wavelengthGrid.length) :
    wavelengthGrid.get ⟨i, h⟩ = 380 + 5 * i := by
  simp [wavelengthGrid]

/-- For a positive temperature the Planck exponent of every grid bin is
positive. -/
theorem planckExponent_pos {T : ℤ} (hT : 0 < T) {wl : ℕ} (hwl : 380 ≤ wl) :
    0 < planckExponent T wl := by
  unfold planckExponent
  have hwlq : (0 : ℚ) < (wl : ℚ) := by exact_mod_cast lt_of_lt_of_le (by norm_num) hwl
  have hTq : (0 : ℚ) < (T : ℚ) := by exact_mod_cast hT
  have hnum : (0 : ℚ) < 6.626e-34 * 3e8 := by norm_num
  have hden : (0 : ℚ) < ((wl : ℚ) * (1 / 10 ^ 9)) * 1.381e-23 * (T : ℚ) := by
    have : (0 : ℚ) < (wl : ℚ) * (1 / 10 ^ 9) := by positivity
    have h13 : (0 : ℚ) < 1.381e-23 := by norm_num
    positivity
  exact div_pos hnum hden

/-- For a negative temperature the Planck exponent of every grid bin is
negative. -/
theorem planckExponent_neg {T : ℤ} (hT : T < 0) {wl : ℕ} (hwl : 380 ≤ wl) :
    planckExponent T wl < 0 := by
  unfold planckExponent
  have hwlq : (0 : ℚ) < (wl : ℚ) := by exact_mod_cast lt_of_lt_of_le (by norm_num) hwl
  have hTq : (T : ℚ) < 0 := by exact_mod_cast hT
  have hnum : (0 : ℚ) < 6.626e-34 * 3e8 := by norm_num
  have hpos : (0 : ℚ) < (wl : ℚ) * (1 / 10 ^ 9) * 1.381e-23 := by
    have h13 : (0 : ℚ) < 1.381e-23 := by norm_num
    positivity
  exact div_neg_of_pos_of_neg hnum (mul_neg_of_pos_of_neg hpos hTq)

/-- For a positive temperature every raw Planck bin is nonnegative. -/
theorem planckIntensity_nonneg {T : ℤ} (hT : 0 < T) {wl : ℕ} (hwl : 380 ≤ wl) :
    0 ≤ planckIntensity T wl := by
  unfold planckIntensity
  rw [if_neg (by exact_mod_cast hT.ne')]
  by_cases he : planckExponent T wl > 700
  · rw [if_pos he]
  · rw [if_neg he]
    have h1 : 1 < expQ (planckExponent T wl) := one_lt_expQ (planckExponent_pos hT hwl)
    have hwlq : (0 : ℚ) < (wl : ℚ) := by exact_mod_cast lt_of_lt_of_le (by norm_num) hwl
    have h2 : (0 : ℚ) < 1 / ((wl : ℚ) * (1 / 10 ^ 9)) ^ 5 := by positivity
    exact (div_pos h2 (by linarith)).le

/-- For a negative temperature every raw Planck bin is strictly
negative: the exponent is negative, so `exp(exponent) - 1 < 0` while the
`1 / wl_m^5` factor is positive. -/
theorem planckIntensity_neg {T : ℤ} (hT : T < 0) {wl : ℕ} (hwl : 380 ≤ wl) :
    planckIntensity T wl < 0 := by
  unfold planckIntensity
  rw [if_neg (by exact_mod_cast hT.ne)]
  have he : planckExponent T wl < 0 := planckExponent_neg hT hwl
  rw [if_neg (by linarith)]
  have h1 : expQ (planckExponent T wl) < 1 := expQ_lt_one he
  have hwlq : (0 : ℚ) < (wl : ℚ) := by exact_mod_cast lt_of_lt_of_le (by norm_num) hwl
  have h2 : (0 : ℚ) < 1 / ((wl : ℚ) * (1 / 10 ^ 9)) ^ 5 := by positivity
  exact div_neg_of_pos_of_neg h2 (by linarith)

/-- The raw spectrum list is never empty. -/
theorem rawStarSpectrum_ne_nil (T : ℤ) : rawStarSpectrum T ≠ [] := by
  unfold rawStarSpectrum
  simp [wavelengthGrid]

/-- For a negative temperature every sample of the *returned* spectrum
is strictly negative: all raw bins are negative, hence the maximum is
not positive and the normalisation step returns the raw list unchanged. -/
theorem star_spectrum_neg_temp {T : ℤ} (hT : T < 0) :
    ∀ p ∈ generate_star_spectrum T, p.2 < 0 := by
  have hraw : ∀ p ∈ rawStarSpectrum T, p.2 < 0 := by
    intro p hp
    obtain ⟨wl, hwl, rfl⟩ := List.mem_map.mp hp
    exact planckIntensity_neg hT (wavelengthGrid_bounds wl hwl).1
  have hM : ¬ 0 < listMax ((rawStarSpectrum T).map Prod.snd) := by
    intro hpos
    have hmem := listMax_mem (l := (rawStarSpectrum T).map Prod.snd)
      (by simp [rawStarSpectrum_ne_nil T])
    obtain ⟨q, hq, hq2⟩ := List.mem_map.mp hmem
    have := hraw q hq
    rw [hq2] at this
    linarith
  unfold generate_star_spectrum normalizeSpectrum
  have hE : (rawStarSpectrum T).isEmpty = false := by
    simp [List.isEmpty_iff, rawStarSpectrum_ne_nil T]
  simp only [hE, Bool.false_eq_true, if_false]
  rw [if_neg hM]
  exact hraw

/-- Claim C5 counterexample: at temperature -2000 the blackbody proxy
returns a curve with strictly negative intensities (the raw negative
values are returned unnormalized), so it is false that every produced
SpectralCurve has all intensities ≥ 0. -/
theorem spectrum_negative_temp_cex :
    ¬ (∀ p ∈ generate_star_spectrum (-2000), 0 ≤ p.2) := by
  intro h
  have hne : generate_star_spectrum (-2000) ≠ [] := by
    unfold generate_star_spectrum normalizeSpectrum
    have hE : (rawStarSpectrum (-2000)).isEmpty = false := by
      simp [List.isEmpty_iff, rawStarSpectrum_ne_nil]
    simp only [hE, Bool.false_eq_true, if_false]
    split
    · simp [rawStarSpectrum_ne_nil]
    · exact rawStarSpectrum_ne_nil _
  obtain ⟨p, hp⟩ := List.exists_mem_of_ne_nil _ hne
  have h1 := star_spectrum_neg_temp (by norm_num) p hp
  have h2 := h p hp
  linarith

/-- Claim C5 amended: for every *positive* temperature the blackbody
proxy, and for every CCT other than -5000 (where the phosphor width is
zero and the routine raises `ZeroDivisionError`) the LED model, produces
exactly 81 samples whose wavelengths are the fixed ascending grid
380, 385, …, 780 nm, with every intensity ≥ 0 and maximum intensity 1
unless all intensities are 0.  (For negative temperatures the blackbody
curve has negative, unnormalized intensities — see the counterexample.) -/
theorem spectrum_shape_amended :
    (∀ i : ℕ, ∀ h : i < wavelengthGrid.length,
      wavelengthGrid.get ⟨i, h⟩ = 380 + 5 * i) ∧
    (∀ T : ℤ, 0 < T →
      (generate_star_spectrum T).length = 81 ∧
      (generate_star_spectrum T).map Prod.fst = wavelengthGrid ∧
      (∀ p ∈ generate_star_spectrum T, 0 ≤ p.2) ∧
      (listMax ((generate_star_spectrum T).map Prod.snd) = 1 ∨
        ∀ p ∈ generate_star_spectrum T, p.2 = 0)) ∧
    (∀ cct : ℤ, cct ≠ -5000 →
      ∃ l, generate_fake_spectrum cct = some l ∧
        l.length = 81 ∧ l.map Prod.fst = wavelengthGrid ∧
        (∀ p ∈ l, 0 ≤ p.2) ∧
        (listMax (l.map Prod.snd) = 1 ∨ ∀ p ∈ l, p.2 = 0)) := by
  refine ⟨wavelengthGrid_get, ?_, ?_⟩
  · intro T hT
    have hnn : ∀ p ∈ rawStarSpectrum T, 0 ≤ p.2 := by
      intro p hp
      obtain ⟨wl, hwl, rfl⟩ := List.mem_map.mp hp
      exact planckIntensity_nonneg hT (wavelengthGrid_bounds wl hwl).1
    obtain ⟨hfst, hlen, hnn2, hmax⟩ :=
      normalizeSpectrum_props (rawStarSpectrum T) (rawStarSpectrum_ne_nil T) hnn
    refine ⟨?_, ?_, hnn2, hmax⟩
    · unfold generate_star_spectrum
      rw [hlen]
      unfold rawStarSpectrum
      rw [List.length_map, wavelengthGrid_length]
    · unfold generate_star_spectrum
      rw [hfst]
      unfold rawStarSpectrum
      exact map_fst_pair _ _
  · intro cct hcct
    have hw : (80 : ℚ) + ((cct : ℚ) - 3000) * 0.01 ≠ 0 := by
      intro h
      apply hcct
      have : (cct : ℚ) = -5000 := by linarith
      exact_mod_cast this
    set raw := wavelengthGrid.map (fun wl => (wl, fakeSpectrumBin cct wl)) with hrawdef
    have hrawne : raw ≠ [] := by simp [hrawdef, wavelengthGrid]
    have hnn : ∀ p ∈ raw, 0 ≤ p.2 := by
      intro p hp
      obtain ⟨wl, hwl, rfl⟩ := List.mem_map.mp hp
      exact le_max_left 0 _
    obtain ⟨hfst, hlen, hnn2, hmax⟩ := normalizeSpectrum_props raw hrawne hnn
    refine ⟨normalizeSpectrum raw, ?_, ?_, ?_, hnn2, hmax⟩
    · rw [generate_fake_spectrum, if_neg hw]
    · rw [hlen, hrawdef, List.length_map, wavelengthGrid_length]
    · rw [hfst, hrawdef]
      exact map_fst_pair _ _

/-- Witness for `spectrum_shape_amended`: the Sun-like temperature
5778 K and the CCT 4000 K satisfy the hypotheses. -/
theorem spectrum_shape_amended_witness :
    ((0 : ℤ) < 5778 ∧ (generate_star_spectrum 5778).length = 81) ∧
    ((4000 : ℤ) ≠ -5000 ∧
      ∃ l, generate_fake_spectrum 4000 = some l ∧ l.length = 81) := by
  refine ⟨⟨by decide, (spectrum_shape_amended.2.1 5778 (by decide)).1⟩,
          ⟨by decide, ?_⟩⟩
  obtain ⟨l, hl, hlen, -⟩ := spectrum_shape_amended.2.2 4000 (by decide)
  exact ⟨l, hl, hlen⟩

/-- Claim C8 counterexample: at temperature -1000 the raw 81-sample
curve is entirely non-positive, and it is returned as-is — with
strictly negative values — not as the all-zero curve the claim
describes. -/
theorem blackbody_nonpositive_cex :
    (∀ p ∈ generate_star_spectrum (-1000), p.2 ≤ 0) ∧
    ¬ (∀ p ∈ generate_star_spectrum (-1000), p.2 = 0) := by
  constructor
  · intro p hp
    exact (star_spectrum_neg_temp (by norm_num) p hp).le
  · intro h
    have hne : generate_star_spectrum (-1000) ≠ [] := by
      unfold generate_star_spectrum normalizeSpectrum
      have hE : (rawStarSpectrum (-1000)).isEmpty = false := by
        simp [List.isEmpty_iff, rawStarSpectrum_ne_nil]
      simp only [hE, Bool.false_eq_true, if_false]
      split
      · simp [rawStarSpectrum_ne_nil]
      · exact rawStarSpectrum_ne_nil _
    obtain ⟨p, hp⟩ := List.exists_mem_of_ne_nil _ hne
    have h1 := star_spectrum_neg_temp (by norm_num) p hp
    have h2 := h p hp
    linarith

/-- Claim C8 amended: the blackbody proxy is total — for every integer
temperature (0 and negatives included) it returns a full 81-sample
curve; at temperature 0 (the caught `ZeroDivisionError`) all samples
are zero; any bin whose Planck exponent exceeds 700 gets zero intensity
(the overflow guard); but when the raw curve's maximum is not positive
the curve is returned *unchanged* (not replaced by an all-zero curve) —
so a negative-temperature curve keeps its negative values. -/
theorem blackbody_guard_amended (T : ℤ) :
    (generate_star_spectrum T).length = 81 ∧
    (T = 0 → ∀ p ∈ generate_star_spectrum T, p.2 = 0) ∧
    (∀ wl ∈ wavelengthGrid, T ≠ 0 → 700 < planckExponent T wl →
      planckIntensity T wl = 0) ∧
    (¬ 0 < listMax ((rawStarSpectrum T).map Prod.snd) →
      generate_star_spectrum T = rawStarSpectrum T) := by
  have hE : (rawStarSpectrum T).isEmpty = false := by
    simp [List.isEmpty_iff, rawStarSpectrum_ne_nil]
  refine ⟨?_, ?_, ?_, ?_⟩
  · unfold generate_star_spectrum normalizeSpectrum
    simp only [hE, Bool.false_eq_true, if_false]
    split
    · rw [List.length_map]
      unfold rawStarSpectrum
      rw [List.length_map, wavelengthGrid_length]
    · unfold rawStarSpectrum
      rw [List.length_map, wavelengthGrid_length]
  · rintro rfl p hp
    have hraw : ∀ q ∈ rawStarSpectrum 0, q.2 = 0 := by
      intro q hq
      obtain ⟨wl, hwl, rfl⟩ := List.mem_map.mp hq
      simp [planckIntensity]
    have hM : listMax ((rawStarSpectrum 0).map Prod.snd) = 0 := by
      have hmem := listMax_mem (l := (rawStarSpectrum 0).map Prod.snd)
        (by simp [rawStarSpectrum_ne_nil])
      obtain ⟨q, hq, hq2⟩ := List.mem_map.mp hmem
      rw [← hq2]
      exact hraw q hq
    revert hp
    unfold generate_star_spectrum normalizeSpectrum
    simp only [hE, Bool.false_eq_true, if_false]
    rw [hM, if_neg (by norm_num)]
    exact hraw p
  · intro wl _ hT0 hgt
    unfold planckIntensity
    rw [if_neg hT0, if_pos hgt]
  · intro hM
    unfold generate_star_spectrum normalizeSpectrum
    simp only [hE, Bool.false_eq_true, if_false]
    rw [if_neg hM]

/-- Witness for `blackbody_guard_amended`: the hypotheses discharged at
temperature 0 (all-zero curve), at bin 380 nm of temperature 1 (overflow
guard: the exponent is ≈ 3.8·10⁷ > 700) and at temperature -7 (raw
curve returned unchanged). -/
theorem blackbody_guard_amended_witness :
    (generate_star_spectrum 0).length = 81 ∧
    (∀ p ∈ generate_star_spectrum 0, p.2 = 0) ∧
    planckIntensity 1 380 = 0 ∧
    generate_star_spectrum (-7) = rawStarSpectrum (-7) := by
  refine ⟨(blackbody_guard_amended 0).1,
          (blackbody_guard_amended 0).2.1 rfl,
          (blackbody_guard_amended 1).2.2.1 380 (by decide) (by decide) (by
            unfold planckExponent
            push_cast
            norm_num),
          (blackbody_guard_amended (-7)).2.2.2 (by
            intro hpos
            have hmem := listMax_mem (l := (rawStarSpectrum (-7)).map Prod.snd)
              (by simp [rawStarSpectrum_ne_nil])
            obtain ⟨q, hq, hq2⟩ := List.mem_map.mp hmem
            obtain ⟨wl, hwl, hq3⟩ := List.mem_map.mp hq
            have hqneg : q.2 < 0 := by
              rw [← hq3]
              exact planckIntensity_neg (by decide : (-7 : ℤ) < 0)
                (wavelengthGrid_bounds wl hwl).1
            rw [hq2] at hqneg
            linarith)⟩

/-- Claim C7: the implemented temperature estimate coincides with the
claim's mapping: the fixed spectral-letter table (O→35000, B→20000,
A→9000, F→7000, G→5500, K→4500, M→3200) with default 5500 K for an empty
or unrecognized classification, and the fixed piecewise-linear colour
index mapping when an index is available. -/
theorem temperature_mapping (s : Star) :
    s.temperature = claimTemperature s.color_index s.spectral_type := by
  unfold Star.temperature claimTemperature
  cases s.color_index with
  | some bv => rfl
  | none =>
      by_cases h : s.spectral_type = ""
      · simp only [h, if_pos rfl, if_true]
        decide
      · simp only [h, if_neg h, if_false]

/-- Claim C2 counterexample: with magnitude ceiling 1 and the catalogue
resource unavailable, the loader returns the fixed fallback list, which
contains stars brighter than no ceiling at all — Polaris has magnitude
2.02 > 1 — so not every returned object respects the ceiling. -/
theorem catalog_limit_cex :
    ¬ (∀ s ∈ load_hyg_catalogue none 1, s.mag ≤ 1) := by
  intro h
  have hmem : ({ name := "Polaris", hip_id := none, ra := 37.954, dec := 89.264,
                 mag := 2.02, spectral_type := "F7Ib",
                 color_index := some 0.60 } : Star) ∈ load_hyg_catalogue none 1 := by
    rw [load_hyg_catalogue, get_fallback_stars]
    simp
  have := h _ hmem
  norm_num at this

/-- Claim C2 amended: on the catalogue path every returned object has
magnitude ≤ the ceiling and every row whose magnitude exceeds the
ceiling is excluded; the fallback path however returns the fixed 15-star
list unfiltered, ignoring the ceiling. -/
theorem catalog_limit_amended (mag_limit : ℚ) :
    (∀ rows : List Row, ∀ s ∈ load_hyg_catalogue (some rows) mag_limit,
        s.mag ≤ mag_limit) ∧
    (∀ r : Row, ∀ m : ℚ, r.mag = .good m → mag_limit < m →
        parseRow mag_limit r = none) ∧
    load_hyg_catalogue none mag_limit = get_fallback_stars := by
  refine ⟨?_, ?_, rfl⟩
  · intro rows s hs
    rw [load_hyg_catalogue] at hs
    obtain ⟨r, -, hr⟩ := List.mem_filterMap.mp hs
    obtain ⟨rmag, rra, rdec, rci, rhip, ridf, rproper, rspect, rpyid⟩ := r
    rcases rmag with _ | _ | m
    · cases hr
    · cases hr
    · rcases rci with _ | _ | ci <;> rcases rhip with _ | _ | hip <;>
        rcases rra with _ | _ | ra <;> rcases rdec with _ | _ | dec <;>
        rcases ridf with _ | _ | idf <;>
        simp only [parseRow] at hr <;> split_ifs at hr <;>
        first
          | exact Option.noConfusion hr
          | (injection hr with hr1; subst hr1
             exact le_of_not_gt (by assumption))
  · intro r m hm hlt
    rw [parseRow, hm]
    simp only [if_pos (show m > mag_limit from hlt)]

/-- Witness for `catalog_limit_amended` at the concrete ceiling 6.5 and
a concrete row of magnitude 7: the row is excluded, and the fallback
equation is instantiated. -/
theorem catalog_limit_amended_witness :
    parseRow 6.5
      { mag := .good 7, ra := .good 1, dec := .good 2, ci := .missing,
        hip := .good 3, idf := .good ("77"), proper := "", spect := "" } = none ∧
    load_hyg_catalogue none 6.5 = get_fallback_stars := by
  exact ⟨(catalog_limit_amended 6.5).2.1 _ 7 rfl (by norm_num),
         (catalog_limit_amended 6.5).2.2⟩

/-- Claim C1: the Product Document Composer never emits a document with
a dangling reference — for every input star list, every reference field
of the composed document (the emitters' photometry-id and
light-source-id references and the photometries' file-id references)
names an identifier defined in the same document.  (The source achieves
this by construction: it executes no integrity check and has no error
path, but no input can produce a dangling reference.) -/
theorem composer_never_dangling (visible_stars : List Star) :
    danglingFree (generate_gldf_for_sky_doc visible_stars) = true := by
  unfold danglingFree generate_gldf_for_sky_doc
  simp only [Bool.and_eq_true, List.all_eq_true]
  refine ⟨fun e he => ?_, fun p hp => ?_⟩
  · obtain ⟨q, hq, rfl⟩ := List.mem_map.mp he
    exact ⟨List.elem_eq_true_of_mem
             (List.mem_map_of_mem Prod.fst (List.mem_map_of_mem _ hq)),
           List.elem_eq_true_of_mem (List.mem_map_of_mem _ hq)⟩
  · obtain ⟨q, hq, rfl⟩ := List.mem_map.mp hp
    exact List.elem_eq_true_of_mem
      (List.mem_map_of_mem Prod.fst (List.mem_map_of_mem _ hq))

/-- Claim C9: the composed document is reference-closed by construction.
Exactly one slug is derived per visible star, each section's identifiers
are that slug list decorated with the section prefix, and every
PhotometryReference, LightSourceReference and PhotometryFileReference
names an identifier defined in the same document. -/
theorem compose_reference_closed (stars : List Star) :
    ((generate_gldf_for_sky_doc stars).files.map Prod.fst =
        (stars.map star_to_id).map (fun s => "file_" ++ s)) ∧
    ((generate_gldf_for_sky_doc stars).photometries.map Prod.fst =
        (stars.map star_to_id).map (fun s => "photometry_" ++ s)) ∧
    ((generate_gldf_for_sky_doc stars).lightSources =
        (stars.map star_to_id).map (fun s => "lightsource_" ++ s)) ∧
    ((generate_gldf_for_sky_doc stars).emitters.map GldfEmitter.id =
        (stars.map star_to_id).map (fun s => "emitter_" ++ s)) ∧
    ((generate_gldf_for_sky_doc stars).variants =
        (stars.map star_to_id).map (fun s => "variant_" ++ s)) ∧
    (∀ e ∈ (generate_gldf_for_sky_doc stars).emitters,
        e.photometryRef ∈ (generate_gldf_for_sky_doc stars).photometries.map Prod.fst ∧
        e.lightSourceRef ∈ (generate_gldf_for_sky_doc stars).lightSources) ∧
    (∀ p ∈ (generate_gldf_for_sky_doc stars).photometries,
        p.2 ∈ (generate_gldf_for_sky_doc stars).files.map Prod.fst) := by
  refine ⟨?_, ?_, ?_, ?_, ?_, ?_, ?_⟩
  · simp [generate_gldf_for_sky_doc, List.map_map, Function.comp]
  · simp [generate_gldf_for_sky_doc, List.map_map, Function.comp]
  · simp [generate_gldf_for_sky_doc, List.map_map, Function.comp]
  · simp [generate_gldf_for_sky_doc, List.map_map, Function.comp]
  · simp [generate_gldf_for_sky_doc, List.map_map, Function.comp]
  · intro e he
    simp only [generate_gldf_for_sky_doc] at he ⊢
    obtain ⟨q, hq, rfl⟩ := List.mem_map.mp he
    exact ⟨List.mem_map_of_mem Prod.fst (List.mem_map_of_mem _ hq),
           List.mem_map_of_mem _ hq⟩
  · intro p hp
    simp only [generate_gldf_for_sky_doc] at hp ⊢
    obtain ⟨q, hq, rfl⟩ := List.mem_map.mp hp
    exact List.mem_map_of_mem Prod.fst (List.mem_map_of_mem _ hq)

/-- Witness for `compose_reference_closed` at the concrete one-star list
carrying Vega's catalog data: the membership hypothesis is discharged at
the document's single emitter, whose references are then defined. -/
theorem compose_reference_closed_witness :
    ("photometry_" ++ star_to_id
        { name := "Vega", hip_id := none, ra := 279.235, dec := 38.784,
          mag := 0.03, spectral_type := "A0V", color_index := some 0 }) ∈
      (generate_gldf_for_sky_doc
        [{ name := "Vega", hip_id := none, ra := 279.235, dec := 38.784,
           mag := 0.03, spectral_type := "A0V", color_index := some 0 }]).photometries.map
        Prod.fst ∧
    ("lightsource_" ++ star_to_id
        { name := "Vega", hip_id := none, ra := 279.235, dec := 38.784,
          mag := 0.03, spectral_type := "A0V", color_index := some 0 }) ∈
      (generate_gldf_for_sky_doc
        [{ name := "Vega", hip_id := none, ra := 279.235, dec := 38.784,
           mag := 0.03, spectral_type := "A0V", color_index := some 0 }]).lightSources := by
  exact (compose_reference_closed
    [{ name := "Vega", hip_id := none, ra := 279.235, dec := 38.784,
       mag := 0.03, spectral_type := "A0V", color_index := some 0 }]).2.2.2.2.2.1
    _ (List.mem_cons_self _ _)

/-- Claim C10: for every star the document Emitter's RatedLuminousFlux
is the TM-33 RatedLumens value capped at two billion, and for any
sufficiently bright magnitude (mag ≤ -20) the two values differ. -/
theorem flux_cap_vs_lumens (s : Star) :
    emitterFluxVal s.mag = min (ratedLumensVal s.mag) 2000000000 ∧
    (s.mag ≤ -20 → emitterFluxVal s.mag ≠ ratedLumensVal s.mag) := by
  constructor
  · rfl
  · intro hm
    have hx : (8 : ℚ) ≤ (0 - s.mag) / 2.5 := by
      rw [le_div_iff₀ (by norm_num : (0 : ℚ) < 2.5)]
      linarith
    have hfl : (8 : ℤ) ≤ Int.floor ((0 - s.mag) / 2.5) := by
      exact_mod_cast Int.le_floor.mpr (by exact_mod_cast hx)
    have hpow : (10 : ℚ) ^ (8 : ℤ) ≤ pow10 ((0 - s.mag) / 2.5) := by
      unfold pow10
      exact zpow_le_zpow_right₀ (by norm_num) hfl
    have hq : (10 : ℚ) ^ (11 : ℤ) ≤ pow10 ((0 - s.mag) / 2.5) * 1000 := by
      have h8 : ((10 : ℚ) ^ (8 : ℤ)) * 1000 = (10 : ℚ) ^ (11 : ℤ) := by norm_num
      nlinarith [hpow]
    have hq0 : ¬ pow10 ((0 - s.mag) / 2.5) * 1000 < 0 := by
      push_neg
      calc (0 : ℚ) ≤ (10 : ℚ) ^ (11 : ℤ) := by positivity
        _ ≤ _ := hq
    have hlarge : (100000000000 : ℤ) ≤ ratedLumensVal s.mag := by
      unfold ratedLumensVal intTrunc
      rw [if_neg hq0]
      apply Int.le_floor.mpr
      calc ((100000000000 : ℤ) : ℚ) = (10 : ℚ) ^ (11 : ℤ) := by norm_num
        _ ≤ _ := hq
    have hcap : emitterFluxVal s.mag = 2000000000 := by
      unfold emitterFluxVal
      rw [min_eq_right]
      have h2 : (2000000000 : ℤ) ≤ 100000000000 := by norm_num
      calc (2000000000 : ℤ) ≤ 100000000000 := h2
        _ ≤ ratedLumensVal s.mag := hlarge
        _ = _ := rfl
    rw [hcap]
    intro h
    rw [← h] at hlarge
    norm_num at hlarge

/-- Witness for `flux_cap_vs_lumens` at a star of magnitude -20. -/
theorem flux_cap_vs_lumens_witness :
    emitterFluxVal (-20) = min (ratedLumensVal (-20)) 2000000000 ∧
    emitterFluxVal (-20) ≠ ratedLumensVal (-20) := by
  have h := flux_cap_vs_lumens
    { name := "X", hip_id := none, ra := 0, dec := 0, mag := -20,
      spectral_type := "", color_index := none }
  exact ⟨h.1, h.2 (by norm_num)⟩

/-- `String.append` acts as list append on the character data. -/
theorem string_data_append (a b : String) : (a ++ b).data = a.data ++ b.data := rfl

/-- Two TM-33 serializations of the same star with same-length dates are
equal only when the dates are equal: the invocation date is embedded
twice in the output. -/
theorem tm33_date_inj (star : Star) (d1 d2 : String) (hlen : d1.length = d2.length)
    (h : generate_tm33_for_star star d1 = generate_tm33_for_star star d2) :
    d1 = d2 := by
  unfold generate_tm33_for_star at h
  have hd := congrArg String.data h
  simp only [string_data_append, List.append_assoc] at hd
  have h1 := List.append_cancel_left hd
  exact String.ext (List.append_inj_left h1 hlen)

/-- Claim C3 counterexample: two invocations of the photometric-file
serializer on the same star (Sirius's catalog data) at different
invocation dates produce different text — the serializer embeds
`datetime.now()` in the ReportDate and DocumentCreationDate fields, so
it is not reproducible "regardless of when it is invoked". -/
theorem tm33_date_cex :
    generate_tm33_for_star
      { name := "Sirius", hip_id := none, ra := 101.287, dec := -16.716,
        mag := -1.46, spectral_type := "A1V", color_index := some 0 }
      "2024-01-01" ≠
    generate_tm33_for_star
      { name := "Sirius", hip_id := none, ra := 101.287, dec := -16.716,
        mag := -1.46, spectral_type := "A1V", color_index := some 0 }
      "2024-01-02" := by
  intro h
  have := tm33_date_inj _ "2024-01-01" "2024-01-02" rfl h
  exact absurd this (by decide)

/-- Claim C3 amended: for a fixed numeric input the serializer output is
a function of the invocation date alone, and injectively so — two
invocations produce identical text exactly when they happen on the same
date (`generate_iesxml_content`, whose dates are source literals, takes
no invocation-time input at all and is reproducible by construction). -/
theorem tm33_reproducible_amended (star : Star) (d1 d2 : String)
    (hlen : d1.length = d2.length) :
    generate_tm33_for_star star d1 = generate_tm33_for_star star d2 ↔ d1 = d2 :=
  ⟨tm33_date_inj star d1 d2 hlen, fun h => by rw [h]⟩

/-- Witness for `tm33_reproducible_amended` at a concrete star and date. -/
theorem tm33_reproducible_amended_witness :
    ("2024-01-15" : String).length = ("2024-01-15" : String).length ∧
    (generate_tm33_for_star
        { name := "Vega", hip_id := none, ra := 279.235, dec := 38.784,
          mag := 0.03, spectral_type := "A0V", color_index := some 0 }
        "2024-01-15" =
      generate_tm33_for_star
        { name := "Vega", hip_id := none, ra := 279.235, dec := 38.784,
          mag := 0.03, spectral_type := "A0V", color_index := some 0 }
        "2024-01-15" ↔ ("2024-01-15" : String) = "2024-01-15") :=
  ⟨rfl, tm33_reproducible_amended _ _ _ rfl⟩

/-- A nonempty string has positive length. -/
theorem string_length_pos {s : String} (h : s ≠ "") : 0 < s.length := by
  rcases s with ⟨data⟩
  cases data with
  | nil => exact absurd rfl h
  | cons c t => simp [String.length]

/-- The IESXML body text is never empty (it starts with the XML
declaration). -/
theorem iesxmlBody_length_pos (cct wattage : ℤ) (spectrum : List (ℕ × ℚ)) :
    0 < (iesxmlBody cct wattage spectrum).length := by
  unfold iesxmlBody
  simp only [String.length_append]
  have h : 0 < ("<?xml version=\"1.0\" encoding=\"UTF-8\"?>\n<!--\n" : String).length := by
    decide
  omega

/-- For every CCT of the configuration list the IESXML generation
succeeds and produces nonempty text. -/
theorem iesxml_content_CCTS :
    ∀ cct ∈ CCTS, ∃ s, generate_iesxml_content cct 50 = some s ∧ 0 < s.length := by
  intro cct hcct
  have hspec : generate_fake_spectrum cct =
      some (normalizeSpectrum (wavelengthGrid.map (fun wl => (wl, fakeSpectrumBin cct wl)))) := by
    fin_cases hcct <;> rw [generate_fake_spectrum, if_neg (by norm_num)]
  have hcie : ∃ xy, generate_cie_xy cct = some xy := by
    fin_cases hcct <;> exact ⟨_, by rw [generate_cie_xy, if_neg (by decide)]⟩
  obtain ⟨xy, hxy⟩ := hcie
  refine ⟨iesxmlBody cct 50
      (normalizeSpectrum (wavelengthGrid.map (fun wl => (wl, fakeSpectrumBin cct wl)))),
    ?_, iesxmlBody_length_pos cct 50 _⟩
  simp [generate_iesxml_content, hspec, hxy]

/-- Claim C6 counterexample: the spectral archive built from one product
document, N = 5 photometric files (one per CCT) and one image has 8
entries, not N + 2 = 7 — it also contains the geometry payload. -/
theorem archive_count_cex :
    (spectralGldfEntries ("x") [0] [0]).length = 8 ∧ (8 : ℕ) ≠ 5 + 2 :=
  ⟨rfl, by decide⟩

/-- Claim C6 amended: an archive built by the packager from one product
document plus N photometric files plus 1 image contains exactly N + 3
entries — the document, the N photometric files, the image *and the
geometry payload* — each entry's content equal to its source payload,
with non-zero length whenever the input payloads are nonempty (the
generated IESXML payloads are always nonempty). -/
theorem archive_entries_amended (productXml : String) (geo ldt img : List ℕ)
    (hp : productXml ≠ "") (hg : geo ≠ []) (hl : ldt ≠ []) (hi : img ≠ []) :
    (spectralGldfEntries productXml geo img).length = CCTS.length + 3 ∧
    ((spectralGldfEntries productXml geo img).map Prod.fst =
      ["product.xml", "geometry/model.l3d", "image/product.jpg"] ++
        CCTS.map (fun cct => "ldc/GA15_" ++ toString cct ++ "K.iesxml")) ∧
    ((spectralGldfEntries productXml geo img).map Prod.snd =
      [EntryData.text productXml, EntryData.bytes geo, EntryData.bytes img] ++
        CCTS.map (fun cct =>
          EntryData.text ((generate_iesxml_content cct 50).getD ""))) ∧
    (∀ e ∈ spectralGldfEntries productXml geo img, 0 < e.2.size) ∧
    (enrichedGldfEntries productXml geo ldt img).length = 1 + 3 ∧
    (∀ e ∈ enrichedGldfEntries productXml geo ldt img, 0 < e.2.size) := by
  refine ⟨rfl, by simp [spectralGldfEntries, List.map_map], by
            simp [spectralGldfEntries, List.map_map], ?_, rfl, ?_⟩
  · intro e he
    rw [spectralGldfEntries] at he
    rcases List.mem_append.mp he with hb | hm
    · simp only [List.mem_cons, List.not_mem_nil, or_false] at hb
      rcases hb with h | h | h
      · rw [h]; simpa [EntryData.size] using string_length_pos hp
      · rw [h]; simpa [EntryData.size] using List.length_pos.mpr hg
      · rw [h]; simpa [EntryData.size] using List.length_pos.mpr hi
    · obtain ⟨cct, hcct, rfl⟩ := List.mem_map.mp hm
      obtain ⟨s, hs, hlen⟩ := iesxml_content_CCTS cct hcct
      simpa [EntryData.size, hs] using hlen
  · intro e he
    simp only [enrichedGldfEntries, List.mem_cons, List.not_mem_nil, or_false] at he
    rcases he with h | h | h | h
    · rw [h]; simpa [EntryData.size] using string_length_pos hp
    · rw [h]; simpa [EntryData.size] using List.length_pos.mpr hg
    · rw [h]; simpa [EntryData.size] using List.length_pos.mpr hl
    · rw [h]; simpa [EntryData.size] using List.length_pos.mpr hi

/-- Witness for `archive_entries_amended` at concrete nonempty payloads. -/
theorem archive_entries_amended_witness :
    (spectralGldfEntries ("doc") [1] [2]).length = CCTS.length + 3 ∧
    (enrichedGldfEntries ("doc") [1] [3] [2]).length = 1 + 3 := by
  have h := archive_entries_amended ("doc") [1] [3] [2]
    (by decide) (by decide) (by decide) (by decide)
  exact ⟨h.1, h.2.2.2.2.1⟩

/-- `degrees (arcsin y)` always lies in [-90, 90]. -/
theorem degrees_arcsin_bounds (y : ℝ) :
    -90 ≤ degrees (Real.arcsin y) ∧ degrees (Real.arcsin y) ≤ 90 := by
  have hpi : (0 : ℝ) < Real.pi := Real.pi_pos
  have hfac : (0 : ℝ) ≤ 180 / Real.pi := by positivity
  unfold degrees
  constructor
  · have h := mul_le_mul_of_nonneg_right (Real.neg_pi_div_two_le_arcsin y) hfac
    calc (-90 : ℝ) = -(Real.pi / 2) * (180 / Real.pi) := by field_simp; ring
      _ ≤ _ := h
  · have h := mul_le_mul_of_nonneg_right (Real.arcsin_le_pi_div_two y) hfac
    calc _ ≤ (Real.pi / 2) * (180 / Real.pi) := h
      _ = 90 := by field_simp; ring

/-- `degrees (arccos c)` always lies in [0, 180]. -/
theorem degrees_arccos_bounds (c : ℝ) :
    0 ≤ degrees (Real.arccos c) ∧ degrees (Real.arccos c) ≤ 180 := by
  have hpi : (0 : ℝ) < Real.pi := Real.pi_pos
  have hfac : (0 : ℝ) ≤ 180 / Real.pi := by positivity
  unfold degrees
  refine ⟨mul_nonneg (Real.arccos_nonneg c) hfac, ?_⟩
  have h := mul_le_mul_of_nonneg_right (Real.arccos_le_pi c) hfac
  calc _ ≤ Real.pi * (180 / Real.pi) := h
    _ = 180 := by field_simp

/-- The hemisphere-resolved azimuth formula lies in [0, 360]. -/
theorem az_formula_bounds (s c : ℝ) :
    0 ≤ (if s > 0 then 360 - degrees (Real.arccos c) else degrees (Real.arccos c)) ∧
    (if s > 0 then 360 - degrees (Real.arccos c) else degrees (Real.arccos c)) ≤ 360 := by
  obtain ⟨h1, h2⟩ := degrees_arccos_bounds c
  constructor <;> split <;> linarith

/-- Claim C4 amended: for all real inputs the approximate horizon
transform returns an altitude in [-90, 90] and an azimuth in [0, 360] —
the azimuth can attain 360 exactly (see the counterexample), so the
claimed half-open bound `[0, 360)` weakens to the closed bound. -/
theorem altaz_range_amended (ra dec lat lng d : ℝ) :
    -90 ≤ (calculate_alt_az ra dec lat lng d).1 ∧
    (calculate_alt_az ra dec lat lng d).1 ≤ 90 ∧
    0 ≤ (calculate_alt_az ra dec lat lng d).2 ∧
    (calculate_alt_az ra dec lat lng d).2 ≤ 360 := by
  unfold calculate_alt_az
  dsimp only
  exact ⟨(degrees_arcsin_bounds _).1, (degrees_arcsin_bounds _).2,
         (az_formula_bounds _ _).1, (az_formula_bounds _ _).2⟩

/-- Claim C4 counterexample: for the star at the north celestial pole
(ra = 0, dec = 90) seen from latitude 0, longitude -190.46 at the J2000
epoch (d = 0), the hour angle is 90 degrees (sin > 0) and the clamped
azimuth cosine is exactly 1, so the transform returns azimuth
360 - degrees(arccos 1) = 360 — not strictly less than 360. -/
theorem altaz_azimuth_cex :
    (calculate_alt_az 0 90 0 (-190.46) 0).2 = 360 ∧
    ¬ ((calculate_alt_az 0 90 0 (-190.46) 0).2 < 360) := by
  have harg : (280.46 + 360.9856474 * (0 : ℝ) + (-190.46)) = 90 := by norm_num
  have hfl : (Int.floor ((90 : ℝ) / 360)) = 0 := by
    rw [Int.floor_eq_zero_iff]
    constructor <;> norm_num
  have hfmod : fmod (280.46 + 360.9856474 * (0 : ℝ) + (-190.46)) 360 = 90 := by
    unfold fmod
    rw [harg, hfl]
    norm_num
  have hr90 : radians 90 = Real.pi / 2 := by unfold radians; ring
  have hr0 : radians 0 = 0 := by unfold radians; ring
  have hmain : (calculate_alt_az 0 90 0 (-190.46) 0).2 = 360 := by
    unfold calculate_alt_az
    dsimp only
    rw [hfmod]
    simp only [hr90, hr0]
    simp only [Real.sin_pi_div_two, Real.sin_zero, Real.cos_pi_div_two,
      Real.cos_zero, sub_zero, mul_zero, zero_mul, mul_one, one_mul,
      add_zero, zero_add]
    norm_num [Real.arcsin_zero, Real.arccos_one, degrees, radians,
      Real.cos_zero, Real.sin_pi_div_two]
  exact ⟨hmain, by rw [hmain]; norm_num⟩

end AstralSky
